import Mathlib

/-!
Shallow embedding of `src/model.py`: Soft Actor-Critic model wrappers
(`ActorNet`, `Actor`, `Critic`, `Entropy`).  Tensors are modelled as
real-valued functions; floating point is idealised to the reals.
Spatial and channel indices of images are natural numbers (values outside
the valid grid are junk that no definition reads); batch and action
dimensions are `Fin`-indexed so that output shapes are carried by types.
-/

namespace SACModel

noncomputable section

/-- ReLU activation, elementwise: `relu v = max v 0`. -/
def relu (v : ℝ) : ℝ := max v 0

/-- Elementwise clamp with the semantics of `torch.clamp`:
`clampR x lo hi = min (max x lo) hi`. -/
def clampR (x lo hi : ℝ) : ℝ := min (max x lo) hi

/-- Weights of one `nn.Conv2d` layer: `weight o c a b` is the kernel entry for
output channel `o`, input channel `c`, kernel row `a`, kernel column `b`;
`bias o` is the bias of output channel `o`. -/
structure Conv2dLayer where
  weight : ℕ → ℕ → ℕ → ℕ → ℝ
  bias : ℕ → ℝ

/-- Spatial output size of a convolution with kernel `k` and stride `s` on an
input of size `n` (no padding, no dilation): `(n - k) / s + 1`. -/
def convOutDim (n k s : ℕ) : ℕ := (n - k) / s + 1

/-- Apply a 2-d convolution with `cin` input channels, square kernel `k` and
stride `s` to an image `x` (channel, row, column). -/
def conv2dApply (L : Conv2dLayer) (cin k s : ℕ) (x : ℕ → ℕ → ℕ → ℝ) :
    ℕ → ℕ → ℕ → ℝ :=
  fun o i j =>
    L.bias o +
      ∑ c ∈ Finset.range cin, ∑ a ∈ Finset.range k, ∑ b ∈ Finset.range k,
        L.weight o c a b * x c (i * s + a) (j * s + b)

/-- ReLU applied elementwise to an image. -/
def reluMap (x : ℕ → ℕ → ℕ → ℝ) : ℕ → ℕ → ℕ → ℝ :=
  fun c i j => relu (x c i j)

/-- The three-layer convolutional stack shared (structurally) by the actor and
both critic branches: Conv(cin,32,8,4) / ReLU / Conv(32,64,4,2) / ReLU /
Conv(64,64,3,1) / ReLU. -/
structure ConvStack where
  c1 : Conv2dLayer
  c2 : Conv2dLayer
  c3 : Conv2dLayer

/-- Forward pass of the convolutional stack on one image with `cin` channels. -/
def convStackApply (S : ConvStack) (cin : ℕ) (x : ℕ → ℕ → ℕ → ℝ) :
    ℕ → ℕ → ℕ → ℝ :=
  reluMap (conv2dApply S.c3 64 3 1
    (reluMap (conv2dApply S.c2 32 4 2
      (reluMap (conv2dApply S.c1 cin 8 4 x)))))

/-- Spatial size after the three convolutions of the stack. -/
def spatialOut (n : ℕ) : ℕ :=
  convOutDim (convOutDim (convOutDim n 8 4) 4 2) 3 1

/-- Flattened feature size after the convolutional stack on an `h × w` input:
the closed form of the value the dry-run probe `_get_conv_output` computes
(64 output channels times the final spatial grid). -/
def flattenedSize (h w : ℕ) : ℕ := 64 * spatialOut h * spatialOut w

/-- `nn.Flatten`: row-major flattening of a (channel, row, column) feature map
with final spatial size `hf × wf` into a vector. -/
def flattenFeatures (hf wf : ℕ) (y : ℕ → ℕ → ℕ → ℝ) :
    Fin (64 * hf * wf) → ℝ :=
  fun f => y (f.val / (hf * wf)) (f.val % (hf * wf) / wf) (f.val % wf)

/-- Weights of one `nn.Linear` layer with `nin` inputs and `nout` outputs. -/
structure Linear (nin nout : ℕ) where
  weight : Fin nout → Fin nin → ℝ
  bias : Fin nout → ℝ

/-- Forward pass of a linear layer: `W x + b`. -/
def linearApply {nin nout : ℕ} (L : Linear nin nout) (x : Fin nin → ℝ) :
    Fin nout → ℝ :=
  fun o => L.bias o + ∑ i, L.weight o i * x i

/-- An observation batch of `bsz` images with `cin` channels. -/
def ObsBatch (bsz : ℕ) : Type := Fin bsz → ℕ → ℕ → ℕ → ℝ

/-- The `ActorNet` module for input shape `(cin, h, w)` and `adim` action
dimensions: convolutional stack, fully-connected trunk `fc`, and the two
parallel heads `mean` and `log_std`; `max_action` is stored at construction. -/
structure ActorNet (cin h w adim : ℕ) where
  max_action : Fin adim → ℝ
  conv_layers : ConvStack
  fc : Linear (flattenedSize h w) 512
  mean : Linear 512 adim
  log_std : Linear 512 adim

/-- Forward pass of `ActorNet` on a batch: conv stack, flatten, ReLU(fc),
then `mean = max_action * tanh(mean_head x)` and
`std = exp (clamp (log_std_head x) (-20) 2)`; returns `(mean, std)`. -/
def ActorNet.forward {cin h w adim : ℕ} (net : ActorNet cin h w adim)
    {bsz : ℕ} (state : ObsBatch bsz) :
    (Fin bsz → Fin adim → ℝ) × (Fin bsz → Fin adim → ℝ) :=
  let x : Fin bsz → Fin 512 → ℝ := fun b o =>
    relu (linearApply net.fc
      (flattenFeatures (spatialOut h) (spatialOut w)
        (convStackApply net.conv_layers cin (state b))) o)
  let meanv : Fin bsz → Fin adim → ℝ := fun b a =>
    net.max_action a * Real.tanh (linearApply net.mean (x b) a)
  let log_stdv : Fin bsz → Fin adim → ℝ := fun b a =>
    clampR (linearApply net.log_std (x b) a) (-20) 2
  let stdv : Fin bsz → Fin adim → ℝ := fun b a => Real.exp (log_stdv b a)
  (meanv, stdv)

/-- The learned weights an `Actor` construction draws at random: everything of
an `ActorNet` except the stored `max_action`. -/
structure ActorWeights (cin h w adim : ℕ) where
  conv_layers : ConvStack
  fc : Linear (flattenedSize h w) 512
  mean : Linear 512 adim
  log_std : Linear 512 adim

/-- The `Actor` wrapper: elementwise action bounds plus its `ActorNet`. -/
structure Actor (cin h w adim : ℕ) where
  min_action : Fin adim → ℝ
  max_action : Fin adim → ℝ
  actor_net : ActorNet cin h w adim

/-- The default `action_dim = 5` of the `ActorNet` constructor, which
`Actor.__init__` uses because it passes only `max_action` when it calls
`ActorNet(self.max_action)`. -/
def actorNetDefaultActionDim : ℕ := 5

/-- Construction of `Actor`: stores the bounds and builds
`ActorNet(self.max_action)` from the drawn weights (device placement and the
optimizer are identities in this embedding).  The source passes no input shape
and no action dimension to the `ActorNet` constructor, so the net always has
input shape (1, 84, 84) and five action dimensions; the wrapper is only
well-formed when the bound vectors are five-dimensional. -/
def Actor.init (min_action max_action : Fin 5 → ℝ)
    (wts : ActorWeights 1 84 84 5) : Actor 1 84 84 5 :=
  { min_action := min_action
    max_action := max_action
    actor_net :=
      { max_action := max_action
        conv_layers := wts.conv_layers
        fc := wts.fc
        mean := wts.mean
        log_std := wts.log_std } }

/-- Combination of two sizes under torch broadcasting: a size of one stretches
to the other, equal sizes agree, anything else is a broadcast error. -/
def broadcastDim (m n : ℕ) : Option ℕ :=
  if m = 1 then some n else if n = 1 then some m else if m = n then some m else none

/-- Broadcasting of two shapes given with their trailing dimension first;
a missing leading dimension is treated as stretchable. -/
def broadcastRev : List ℕ → List ℕ → Option (List ℕ)
  | [], ys => some ys
  | x :: xs, [] => some (x :: xs)
  | x :: xs, y :: ys =>
    match broadcastDim x y, broadcastRev xs ys with
    | some d, some rest => some (d :: rest)
    | _, _ => none

/-- Torch broadcasting of two tensor shapes: align the trailing dimensions and
combine them one by one; `none` is the RuntimeError torch raises on
incompatible shapes. -/
def broadcastShapes (s1 s2 : List ℕ) : Option (List ℕ) :=
  (broadcastRev s1.reverse s2.reverse).map List.reverse

/-- Shape-level model of the mean line of `ActorNet.forward` inside an actor
built by `Actor.__init__` with bound vectors of dimension `boundsDim`, on a
batch of `bsz` observations: the source multiplies `self.max_action` (shape
`(boundsDim,)`) with `tanh(self.mean(x))` (shape `(bsz, 5)`, since the net was
built with the default action dimension). -/
def actorForwardMeanShape (boundsDim bsz : ℕ) : Option (List ℕ) :=
  broadcastShapes [boundsDim] [bsz, actorNetDefaultActionDim]

/-- A plain host-resident numeric array of shape `(bsz, adim)`: the value-level
image of `.detach().cpu().numpy()`, carrying no gradient graph. -/
def NpArray (bsz adim : ℕ) : Type := Fin bsz → Fin adim → ℝ

/-- The `choose_action` method: forward pass, sample the diagonal Normal
(`eps` is the per-element standard-normal draw, so the sample is
`mean + std * eps`), clamp elementwise to `[min_action, max_action]`, and
return the values as a plain numeric array. -/
def Actor.choose_action {cin h w adim : ℕ} (ac : Actor cin h w adim)
    {bsz : ℕ} (state : ObsBatch bsz) (eps : Fin bsz → Fin adim → ℝ) :
    NpArray bsz adim :=
  let ms := ac.actor_net.forward state
  let action : Fin bsz → Fin adim → ℝ := fun b a => ms.1 b a + ms.2 b a * eps b a
  fun b a => clampR (action b a) (ac.min_action a) (ac.max_action a)

/-- Log-density of `Normal(loc, scale)` at `x`, as `torch.distributions.Normal
.log_prob` computes it: `-(x-loc)^2/(2 scale^2) - log scale - log sqrt(2 pi)`. -/
def normalLogProb (loc scale x : ℝ) : ℝ :=
  -((x - loc) ^ 2) / (2 * scale ^ 2) - Real.log scale -
    Real.log (Real.sqrt (2 * Real.pi))

/-- Return value of `Actor.evaluate`.  The field `z` is a scalar real: the
source draws it once from a scalar `Normal(0,1)`, a 0-dimensional tensor. -/
structure EvalOutput (bsz adim : ℕ) where
  action : Fin bsz → Fin adim → ℝ
  log_prob : Fin bsz → Fin adim → ℝ
  z : ℝ
  mean : Fin bsz → Fin adim → ℝ
  std : Fin bsz → Fin adim → ℝ

/-- The `evaluate` method: forward pass, draw one scalar `z` from `Normal(0,1)`
(here the outcome is the argument `z`), squash `mean + std * z` with `tanh`,
clamp to the bounds, and take the Gaussian log-probability of the pre-squash
sample minus the `log (1 - action^2 + 1e-6)` correction. -/
def Actor.evaluate {cin h w adim : ℕ} (ac : Actor cin h w adim)
    {bsz : ℕ} (state : ObsBatch bsz) (z : ℝ) : EvalOutput bsz adim :=
  let ms := ac.actor_net.forward state
  let action0 : Fin bsz → Fin adim → ℝ := fun b a =>
    Real.tanh (ms.1 b a + ms.2 b a * z)
  let action : Fin bsz → Fin adim → ℝ := fun b a =>
    clampR (action0 b a) (ac.min_action a) (ac.max_action a)
  let action_logprob : Fin bsz → Fin adim → ℝ := fun b a =>
    normalLogProb (ms.1 b a) (ms.2 b a) (ms.1 b a + ms.2 b a * z) -
      Real.log (1 - action b a ^ 2 + 1e-6)
  { action := action
    log_prob := action_logprob
    z := z
    mean := ms.1
    std := ms.2 }

/-- The `Critic` wrapper, viewed at the granularity the soft update touches:
`critic_net` and `target_net` are the two networks' parameter collections,
each tensor flattened to a list of reals, listed in the (identical)
registration order that `parameters()` iterates. -/
structure Critic where
  tau : ℝ
  critic_net : List (List ℝ)
  target_net : List (List ℝ)

/-- The `update` method: Polyak soft update.  Zips target and online parameter
tensors in matching order and replaces each target entry in place by
`target * (1 - tau) + param * tau`. -/
def Critic.update (c : Critic) : Critic :=
  { c with
    target_net :=
      List.zipWith
        (fun target_param param =>
          List.zipWith (fun t p => t * (1 - c.tau) + p * c.tau) target_param param)
        c.target_net c.critic_net }

/-- Optimizer state of a scalar Adam parameter (step count, first and second
moment estimates), as `torch.optim.Adam` keeps per parameter. -/
structure AdamState where
  step : ℕ
  m : ℝ
  v : ℝ

/-- One Adam step on a scalar parameter with PyTorch defaults
(beta1 = 0.9, beta2 = 0.999, eps = 1e-8): returns the new parameter value and
the new optimizer state.  `g` is the gradient `backward` accumulated. -/
def adamStep (lr theta : ℝ) (st : AdamState) (g : ℝ) : ℝ × AdamState :=
  let t := st.step + 1
  let m1 := 0.9 * st.m + 0.1 * g
  let v1 := 0.999 * st.v + 0.001 * g ^ 2
  let mhat := m1 / (1 - 0.9 ^ t)
  let vhat := v1 / (1 - 0.999 ^ t)
  (theta - lr * mhat / (Real.sqrt vhat + 1e-8), ⟨t, m1, v1⟩)

/-- The `Entropy` wrapper: learning rate, fixed `target_entropy`, the learnable
scalar `log_alpha`, the derived `alpha`, and the Adam state over
`[log_alpha]`. -/
structure Entropy where
  entropy_lr : ℝ
  target_entropy : ℤ
  log_alpha : ℝ
  alpha : ℝ
  optState : AdamState

/-- Construction of `Entropy`: `target_entropy = -action_dim`, `log_alpha`
starts at zero, `alpha = log_alpha.exp()` is computed once here, and a fresh
Adam state is created. -/
def Entropy.init (entropy_lr : ℝ) (action_dim : ℕ) : Entropy :=
  let log_alpha : ℝ := 0
  { entropy_lr := entropy_lr
    target_entropy := -(action_dim : ℤ)
    log_alpha := log_alpha
    alpha := Real.exp log_alpha
    optState := ⟨0, 0, 0⟩ }

/-- The `learn` method: zero the gradients, backpropagate the external loss
(its gradient with respect to `log_alpha` is `g`), and take one Adam step.
Only `log_alpha` and the optimizer state are written. -/
def Entropy.learn (e : Entropy) (g : ℝ) : Entropy :=
  let r := adamStep e.entropy_lr e.log_alpha e.optState g
  { e with log_alpha := r.1, optState := r.2 }

/-! Helper lemmas shared by the claim theorems. -/

lemma abs_tanh_lt_one (x : ℝ) : |Real.tanh x| < 1 := by
  rw [Real.tanh_eq_sinh_div_cosh, abs_div, abs_of_pos (Real.cosh_pos x),
    div_lt_one (Real.cosh_pos x)]
  rcases abs_cases (Real.sinh x) with ⟨he, _⟩ | ⟨he, _⟩
  · rw [he]; exact Real.sinh_lt_cosh x
  · rw [he]
    have h2 : Real.sinh (-x) < Real.cosh (-x) := Real.sinh_lt_cosh (-x)
    rw [Real.sinh_neg, Real.cosh_neg] at h2
    linarith

lemma clampR_le_right (x lo hi : ℝ) : clampR x lo hi ≤ hi :=
  min_le_right _ _

lemma le_clampR (x : ℝ) {lo hi : ℝ} (h : lo ≤ hi) : lo ≤ clampR x lo hi :=
  le_min (le_max_right x lo) h

lemma clampR_mem_Icc (x : ℝ) {lo hi : ℝ} (h : lo ≤ hi) :
    clampR x lo hi ∈ Set.Icc lo hi :=
  ⟨le_clampR x h, clampR_le_right x lo hi⟩

lemma forward_std_eq {cin h w adim : ℕ} (net : ActorNet cin h w adim)
    {bsz : ℕ} (state : ObsBatch bsz) (b : Fin bsz) (a : Fin adim) :
    ∃ u : ℝ, (net.forward state).2 b a = Real.exp (clampR u (-20) 2) :=
  ⟨_, rfl⟩

lemma forward_mean_eq {cin h w adim : ℕ} (net : ActorNet cin h w adim)
    {bsz : ℕ} (state : ObsBatch bsz) (b : Fin bsz) (a : Fin adim) :
    ∃ u : ℝ, (net.forward state).1 b a = net.max_action a * Real.tanh u :=
  ⟨_, rfl⟩

lemma choose_action_eq {cin h w adim : ℕ} (ac : Actor cin h w adim)
    {bsz : ℕ} (state : ObsBatch bsz) (eps : Fin bsz → Fin adim → ℝ)
    (b : Fin bsz) (a : Fin adim) :
    ac.choose_action state eps b a =
      clampR ((ac.actor_net.forward state).1 b a +
          (ac.actor_net.forward state).2 b a * eps b a)
        (ac.min_action a) (ac.max_action a) :=
  rfl

lemma choose_action_mem_Icc {cin h w adim : ℕ} (ac : Actor cin h w adim)
    {bsz : ℕ} (state : ObsBatch bsz) (eps : Fin bsz → Fin adim → ℝ)
    (b : Fin bsz) (a : Fin adim) (h : ac.min_action a ≤ ac.max_action a) :
    ac.choose_action state eps b a ∈ Set.Icc (ac.min_action a) (ac.max_action a) := by
  rw [choose_action_eq]
  exact clampR_mem_Icc _ h

lemma zipWith_self_eq {α : Type} (f : α → α → α) (hf : ∀ x, f x x = x) :
    ∀ l : List α, List.zipWith f l l = l := by
  intro l
  induction l with
  | nil => rfl
  | cons x xs ih => simp [List.zipWith, hf, ih]

lemma getD_zipWith {α β γ : Type} (f : α → β → γ) :
    ∀ (l1 : List α) (l2 : List β) (i : ℕ) (d1 : α) (d2 : β) (d3 : γ),
      i < l1.length → i < l2.length →
      (List.zipWith f l1 l2).getD i d3 = f (l1.getD i d1) (l2.getD i d2) := by
  intro l1
  induction l1 with
  | nil => intro l2 i d1 d2 d3 h1 h2; simp at h1
  | cons x xs ih =>
    intro l2 i d1 d2 d3 h1 h2
    cases l2 with
    | nil => simp at h2
    | cons y ys =>
      cases i with
      | zero => rfl
      | succ n =>
        simp only [List.zipWith, List.getD_cons_succ]
        exact ih ys n d1 d2 d3 (by simpa using h1) (by simpa using h2)

lemma entropy_learn_frame (e : Entropy) (g : ℝ) :
    (e.learn g).alpha = e.alpha ∧ (e.learn g).target_entropy = e.target_entropy ∧
      (e.learn g).entropy_lr = e.entropy_lr :=
  ⟨rfl, rfl, rfl⟩

lemma entropy_foldl_learn_frame :
    ∀ (gs : List ℝ) (e : Entropy),
      (List.foldl Entropy.learn e gs).alpha = e.alpha ∧
        (List.foldl Entropy.learn e gs).target_entropy = e.target_entropy ∧
        (List.foldl Entropy.learn e gs).entropy_lr = e.entropy_lr := by
  intro gs
  induction gs with
  | nil => intro e; exact ⟨rfl, rfl, rfl⟩
  | cons g gs ih =>
    intro e
    obtain ⟨h1, h2, h3⟩ := ih (e.learn g)
    exact ⟨h1, h2, h3⟩

/-! Concrete instances used by the witnesses. -/

/-- A convolution layer with all weights and biases zero. -/
def zeroConv : Conv2dLayer := ⟨fun _ _ _ _ => 0, fun _ => 0⟩

/-- A convolutional stack with all-zero layers. -/
def zeroStack : ConvStack := ⟨zeroConv, zeroConv, zeroConv⟩

/-- A linear layer with all weights and biases zero. -/
def zeroLinear (nin nout : ℕ) : Linear nin nout := ⟨fun _ _ => 0, fun _ => 0⟩

/-- All-zero actor weights for input shape (1, 84, 84) and five action dims,
the shape `Actor.__init__` always builds. -/
def zeroWeights : ActorWeights 1 84 84 5 :=
  ⟨zeroStack, zeroLinear _ _, zeroLinear _ _, zeroLinear _ _⟩

/-- A concrete actor with bounds -1 and 1 in every action dimension. -/
def actorExample : Actor 1 84 84 5 :=
  Actor.init (fun _ => -1) (fun _ => 1) zeroWeights

/-- A concrete critic whose target and online parameter lists differ. -/
def criticExample : Critic := ⟨1 / 2, [[3]], [[1]]⟩

/-- A concrete critic with tau = 0.005 and identical target and online
parameter lists. -/
def criticSame : Critic := ⟨5 / 1000, [[1, 2]], [[1, 2]]⟩

/-! Claim theorems. -/

/-- C1: after `Critic.update()`, every target-network parameter entry (tensor
`i`, element `j`, paired with the online network in matching structural order)
is replaced by `(1 - tau) * old_target + tau * online`. -/
theorem critic_update_polyak (c : Critic) (i j : ℕ)
    (hi : i < c.target_net.length) (hio : i < c.critic_net.length)
    (hj : j < (c.target_net.getD i []).length)
    (hjo : j < (c.critic_net.getD i []).length) :
    ((c.update.target_net.getD i []).getD j 0 : ℝ) =
      (1 - c.tau) * ((c.target_net.getD i []).getD j 0) +
        c.tau * ((c.critic_net.getD i []).getD j 0) := by
  simp only [Critic.update]
  rw [getD_zipWith _ c.target_net c.critic_net i [] [] [] hi hio]
  rw [getD_zipWith _ _ _ j 0 0 0 hj hjo]
  ring

/-- Witness for C1 at a concrete critic (tau = 1/2, target = [[3]],
online = [[1]]). -/
theorem critic_update_polyak_witness :
    0 < criticExample.target_net.length ∧ 0 < criticExample.critic_net.length ∧
    0 < (criticExample.target_net.getD 0 []).length ∧
    0 < (criticExample.critic_net.getD 0 []).length ∧
    ((criticExample.update.target_net.getD 0 []).getD 0 0 : ℝ) =
      (1 - criticExample.tau) * ((criticExample.target_net.getD 0 []).getD 0 0) +
        criticExample.tau * ((criticExample.critic_net.getD 0 []).getD 0 0) :=
  ⟨by simp [criticExample], by simp [criticExample], by simp [criticExample],
   by simp [criticExample],
   critic_update_polyak criticExample 0 0 (by simp [criticExample])
     (by simp [criticExample]) (by simp [criticExample]) (by simp [criticExample])⟩

/-- C2: for every observation batch and every sampled noise, the array
`choose_action` returns (a plain numeric value array, carrying no gradient
graph in this embedding) lies elementwise within `[min_action, max_action]`,
given a well-formed action envelope at that coordinate. -/
theorem choose_action_within_bounds {cin h w adim : ℕ} (ac : Actor cin h w adim)
    {bsz : ℕ} (state : ObsBatch bsz) (eps : Fin bsz → Fin adim → ℝ)
    (b : Fin bsz) (a : Fin adim) (hba : ac.min_action a ≤ ac.max_action a) :
    ac.min_action a ≤ ac.choose_action state eps b a ∧
      ac.choose_action state eps b a ≤ ac.max_action a :=
  choose_action_mem_Icc ac state eps b a hba

/-- Witness for C2 at a concrete actor, zero observation and zero noise. -/
theorem choose_action_within_bounds_witness :
    actorExample.min_action 0 ≤ actorExample.max_action 0 ∧
    (actorExample.min_action 0 ≤
        actorExample.choose_action (fun (_ : Fin 1) _ _ _ => (0 : ℝ))
          (fun _ _ => 0) 0 0 ∧
      actorExample.choose_action (fun (_ : Fin 1) _ _ _ => (0 : ℝ))
          (fun _ _ => 0) 0 0 ≤
        actorExample.max_action 0) :=
  ⟨by norm_num [actorExample, Actor.init],
   choose_action_within_bounds actorExample (fun (_ : Fin 1) _ _ _ => (0 : ℝ))
     (fun _ _ => 0) 0 0 (by norm_num [actorExample, Actor.init])⟩

/-- C3: the claimed scenario does not run in the source.  `Actor.__init__`
builds `ActorNet(self.max_action)` with the default `action_dim = 5`, so with
the two-dimensional bounds `min_action = [-1, -1]`, `max_action = [1, 1]` the
mean line of `ActorNet.forward` on a zero batch of shape (1, 1, 84, 84)
multiplies tensors of shapes `(2,)` and `(1, 5)`; torch broadcasting rejects
that pair (the shape-level model returns `none`, the RuntimeError), so
`choose_action` raises and never returns a shape-(1, 2) array. -/
theorem choose_action_scenario_broadcast_error :
    actorForwardMeanShape 2 1 = none :=
  rfl

/-- C4: `Actor.evaluate` returns `action = clamp (tanh (mean + std * z))
min_action max_action` for the same returned `z`, and `log_prob` equal to the
Gaussian log-probability of the pre-squash sample `mean + std * z` under
`Normal(mean, std)` minus `log (1 - action^2 + 1e-6)`, elementwise. -/
theorem evaluate_action_logprob {cin h w adim : ℕ} (ac : Actor cin h w adim)
    {bsz : ℕ} (state : ObsBatch bsz) (z : ℝ) (b : Fin bsz) (a : Fin adim) :
    (ac.evaluate state z).action b a =
      clampR (Real.tanh ((ac.evaluate state z).mean b a +
          (ac.evaluate state z).std b a * (ac.evaluate state z).z))
        (ac.min_action a) (ac.max_action a) ∧
    (ac.evaluate state z).log_prob b a =
      normalLogProb ((ac.evaluate state z).mean b a)
          ((ac.evaluate state z).std b a)
          ((ac.evaluate state z).mean b a + (ac.evaluate state z).std b a * z) -
        Real.log (1 - (ac.evaluate state z).action b a ^ 2 + 1e-6) :=
  ⟨rfl, rfl⟩

/-- C5: the `std` returned by `ActorNet.forward` is elementwise strictly
positive and lies within `[exp (-20), exp 2]`, for every observation batch. -/
theorem actorNet_std_bounds {cin h w adim : ℕ} (net : ActorNet cin h w adim)
    {bsz : ℕ} (state : ObsBatch bsz) (b : Fin bsz) (a : Fin adim) :
    0 < (net.forward state).2 b a ∧
      Real.exp (-20) ≤ (net.forward state).2 b a ∧
        (net.forward state).2 b a ≤ Real.exp 2 := by
  obtain ⟨u, hu⟩ := forward_std_eq net state b a
  rw [hu]
  refine ⟨Real.exp_pos _, ?_, ?_⟩
  · exact Real.exp_le_exp.mpr (le_clampR u (by norm_num))
  · exact Real.exp_le_exp.mpr (clampR_le_right u (-20) 2)

/-- C6: the `mean` returned by `ActorNet.forward` lies elementwise within
`[-max_action, max_action]`, for every observation batch, given a nonnegative
action bound at that coordinate. -/
theorem actorNet_mean_bounds {cin h w adim : ℕ} (net : ActorNet cin h w adim)
    {bsz : ℕ} (state : ObsBatch bsz) (b : Fin bsz) (a : Fin adim)
    (hpos : 0 ≤ net.max_action a) :
    -net.max_action a ≤ (net.forward state).1 b a ∧
      (net.forward state).1 b a ≤ net.max_action a := by
  obtain ⟨u, hu⟩ := forward_mean_eq net state b a
  rw [hu]
  have ht := abs_le.mp (abs_tanh_lt_one u).le
  constructor
  · nlinarith [ht.1, ht.2]
  · nlinarith [ht.1, ht.2]

/-- Witness for C6 at a concrete network with max_action = 1 and a zero
observation batch. -/
theorem actorNet_mean_bounds_witness :
    (0 : ℝ) ≤ actorExample.actor_net.max_action 0 ∧
    (-actorExample.actor_net.max_action 0 ≤
        (actorExample.actor_net.forward (fun (_ : Fin 1) _ _ _ => (0 : ℝ))).1 0 0 ∧
      (actorExample.actor_net.forward (fun (_ : Fin 1) _ _ _ => (0 : ℝ))).1 0 0 ≤
        actorExample.actor_net.max_action 0) :=
  ⟨by norm_num [actorExample, Actor.init],
   actorNet_mean_bounds actorExample.actor_net (fun _ _ _ _ => (0 : ℝ)) 0 0
     (by norm_num [actorExample, Actor.init])⟩

/-- C7: if the online and target parameter collections hold identical values,
one call to `Critic.update()` leaves every target parameter unchanged. -/
theorem critic_update_identical (c : Critic)
    (h : c.target_net = c.critic_net) :
    c.update.target_net = c.target_net := by
  simp only [Critic.update]
  rw [h]
  exact zipWith_self_eq _
    (fun l => zipWith_self_eq _ (fun t => by ring) l) c.critic_net

/-- Witness for C7 at a concrete critic with tau = 0.005 and identical
parameter lists. -/
theorem critic_update_identical_witness :
    criticSame.target_net = criticSame.critic_net ∧
      criticSame.update.target_net = criticSame.target_net :=
  ⟨rfl, critic_update_identical criticSame rfl⟩

/-- C8: `Entropy.alpha` is set once at construction to `exp 0 = 1` and no
sequence of `learn` calls refreshes it; `target_entropy` and the learning
rate are also untouched (only `log_alpha` and the optimizer state change). -/
theorem entropy_alpha_frame (lr : ℝ) (d : ℕ) (gs : List ℝ) :
    (List.foldl Entropy.learn (Entropy.init lr d) gs).alpha = 1 ∧
      (List.foldl Entropy.learn (Entropy.init lr d) gs).target_entropy =
        -(d : ℤ) ∧
      (List.foldl Entropy.learn (Entropy.init lr d) gs).entropy_lr = lr := by
  obtain ⟨h1, h2, h3⟩ := entropy_foldl_learn_frame gs (Entropy.init lr d)
  refine ⟨?_, ?_, ?_⟩
  · rw [h1]; exact Real.exp_zero
  · rw [h2]; rfl
  · rw [h3]; rfl

/-- C9: an `Entropy` constructed with `action_dim = 3` has
`target_entropy = -3` and initial `alpha = exp 0 = 1`. -/
theorem entropy_init_scenario (lr : ℝ) :
    (Entropy.init lr 3).target_entropy = -3 ∧ (Entropy.init lr 3).alpha = 1 :=
  ⟨rfl, Real.exp_zero⟩

/-- C10: in `Actor.evaluate` the noise is one scalar real (the field `z` of
the output, equal to the single draw `z`), shared by every batch element and
every action dimension: a single `zs : ℝ` (not a per-element tensor) makes the
action equation hold simultaneously at all positions. -/
theorem evaluate_scalar_noise {cin h w adim : ℕ} (ac : Actor cin h w adim)
    {bsz : ℕ} (state : ObsBatch bsz) (z : ℝ) :
    (ac.evaluate state z).z = z ∧
      ∃ zs : ℝ, (ac.evaluate state z).z = zs ∧
        ∀ (b : Fin bsz) (a : Fin adim),
          (ac.evaluate state z).action b a =
            clampR (Real.tanh ((ac.evaluate state z).mean b a +
                (ac.evaluate state z).std b a * zs))
              (ac.min_action a) (ac.max_action a) :=
  ⟨rfl, z, rfl, fun _ _ => rfl⟩

end

end SACModel
